import Mathlib

/-!
Shallow embedding of the Clinical Data Integrity & Range Resolution Engine
of the `text2csv_PS2` repository ("Medical System" package), covering:

* `report_generator.py` — `ReportGenerator.determine_test_status`
* `database_manager.py` — `check_duplicate_test_result`, `add_test_result`,
  `get_best_matching_range`, `get_age_gender_adjusted_range`, `add_test_type`
* `flexible_data_processor.py` — the get-or-create-test-type step of
  `import_flexible_csv`

Python floats are modelled as exact rationals (`ℚ`); SQLite rows as Lean
structures; the date strings handled by `check_duplicate_test_result` as an
inductive type whose constructors record how `datetime.strptime` parses them.
-/

namespace MedSys

/-- Clinical status labels returned by `determine_test_status`
(`report_generator.py`). `unknown` is the string `'unknown'` returned when
normal bounds are missing. -/
inductive Status where
  | critical_low
  | low
  | normal
  | high
  | critical_high
  | unknown
deriving DecidableEq, Repr

/-- `report_generator.py` lines 71–75: critical-threshold selection inside
`determine_test_status`.  The Python code recomputes BOTH thresholds whenever
EITHER is `None` (`if critical_low is None or critical_high is None`), using
30% of the normal-range width beyond each bound. -/
def deriveCriticals (normal_min normal_max : ℚ)
    (critical_low critical_high : Option ℚ) : ℚ × ℚ :=
  match critical_low, critical_high with
  | some cl, some ch => (cl, ch)
  | _, _ =>
    let range_width := normal_max - normal_min
    (normal_min - range_width * (3/10), normal_max + range_width * (3/10))

/-- `report_generator.py` lines 77–86: the final classification cascade of
`determine_test_status`, once the normal bounds and critical thresholds are
fixed. -/
def classifyWith (test_value normal_min normal_max critical_low critical_high : ℚ) :
    Status :=
  if critical_high ≤ test_value then .critical_high
  else if test_value ≤ critical_low then .critical_low
  else if normal_max < test_value then .high
  else if test_value < normal_min then .low
  else .normal

/-- Python truthiness of an optional string argument (`if gender:`,
`if test_name:`, `if condition:`): `None` and the empty string are falsy. -/
def pyTruthy : Option String → Bool
  | none => false
  | some s => s ≠ ""

/-- Row of the `test_types` table, in the column order selected by
`get_test_type_by_name` (`database_manager.py` lines 371–380).  The columns
`unit`, `description`, `category`, `method` are not consulted by any claim
and are omitted. -/
structure TestType where
  test_type_id : Nat
  test_name : String
  normal_min : Option ℚ
  normal_max : Option ℚ
  critical_low : Option ℚ
  critical_high : Option ℚ
deriving DecidableEq, Repr

/-- Row of the `custom_test_ranges` table (`database_manager.py` lines
97–115), in schema order; `created_date` and `notes` are not consulted by the
resolver and are omitted. -/
structure CustomRange where
  range_id : Nat
  test_type_id : Nat
  range_name : String
  age_min : Option Int
  age_max : Option Int
  gender : Option String
  condition_name : Option String
  normal_min : Option ℚ
  normal_max : Option ℚ
  critical_low : Option ℚ
  critical_high : Option ℚ
  is_active : Bool
deriving DecidableEq, Repr

/-- The relational store consulted by the range-resolution engine:
the `test_types` and `custom_test_ranges` tables, rows in rowid order. -/
structure Catalog where
  test_types : List TestType
  custom_ranges : List CustomRange
deriving DecidableEq, Repr

/-- SELECT ... FROM test_types WHERE test_name = ? (`database_manager.py`
lines 371–380); `test_name` is UNIQUE, `fetchone` returns the first match. -/
def get_test_type_by_name (cat : Catalog) (test_name : String) : Option TestType :=
  cat.test_types.find? (fun t => t.test_name == test_name)

/-- WHERE clause built by `get_best_matching_range` (`database_manager.py`
lines 837–852): the filter for a patient attribute is added ONLY when that
attribute is supplied (`if age is not None`, `if gender:`, `if condition:`);
for a supplied attribute a candidate passes when the stored constraint is
NULL or is satisfied by the attribute. -/
def rangeCandidates (cat : Catalog) (test_type_id : Nat) (age : Option Int)
    (gender condition : Option String) : List CustomRange :=
  cat.custom_ranges.filter (fun r =>
    r.test_type_id == test_type_id && r.is_active &&
    (match age with
     | some a => (r.age_min.all (fun m => decide (m ≤ a))) &&
                 (r.age_max.all (fun m => decide (a ≤ m)))
     | none => true) &&
    (match gender with
     | some g => if g = "" then true else r.gender.all (fun s => s == g)
     | none => true) &&
    (match condition with
     | some c => if c = "" then true else r.condition_name.all (fun s => s == c)
     | none => true))

/-- Specificity score from the ORDER BY clause of `get_best_matching_range`
(`database_manager.py` lines 855–861): condition set → 4, gender set → 2,
either age bound set → 1. -/
def specificity (r : CustomRange) : Nat :=
  (if r.condition_name.isSome then 4 else 0) +
  (if r.gender.isSome then 2 else 0) +
  (if r.age_min.isSome || r.age_max.isSome then 1 else 0)

/-- Sort order of `get_best_matching_range`: row `r` precedes row `s` when it
has a strictly higher specificity score, or an equal score and a strictly
smaller `range_name` (ORDER BY score DESC, ctr.range_name ASC). -/
def rankBetter (r s : CustomRange) : Bool :=
  decide (specificity s < specificity r) ||
  (specificity s == specificity r && decide (r.range_name < s.range_name))

/-- Step of the LIMIT-1 selection: keep the best row seen so far, replacing
it only by a strictly better-ranked one. -/
def pickStep (acc : Option CustomRange) (r : CustomRange) : Option CustomRange :=
  match acc with
  | none => some r
  | some b => if rankBetter r b then some r else some b

/-- LIMIT 1 after the ORDER BY of `get_best_matching_range`: the first row of
the sorted candidate list, i.e. a candidate no other candidate outranks. -/
def pickBest (l : List CustomRange) : Option CustomRange :=
  l.foldl pickStep none

/-- Embedding of `get_best_matching_range` (`database_manager.py` lines
825–883): resolve the test type, filter active compatible custom ranges,
return the top row of the specificity sort (or none). -/
def get_best_matching_range (cat : Catalog) (test_name : String)
    (age : Option Int) (gender condition : Option String) : Option CustomRange :=
  match get_test_type_by_name cat test_name with
  | none => none
  | some tt => pickBest (rangeCandidates cat tt.test_type_id age gender condition)

/-- Result shape of `get_age_gender_adjusted_range` (`database_manager.py`):
the dict {normal_min, normal_max, critical_low, critical_high, source,
age_adjusted, gender_adjusted}. -/
structure RangeInfo where
  normal_min : Option ℚ
  normal_max : Option ℚ
  critical_low : Option ℚ
  critical_high : Option ℚ
  source : String
  age_adjusted : Bool
  gender_adjusted : Bool
deriving DecidableEq, Repr

/-- Built-in age/gender adjustment table of `get_age_gender_adjusted_range`
(`database_manager.py` lines 658–683): test name → gender key (or "all") →
age bucket → (normal_min, normal_max). -/
def adjustmentsTable : List (String × List (String × List (String × ℚ × ℚ))) :=
  [("Hemoglobin",
     [("Male", [("adult", (13.8, 17.2)), ("child", (11.0, 16.0)), ("elderly", (13.0, 16.8))]),
      ("Female", [("adult", (12.1, 15.1)), ("child", (11.0, 16.0)), ("elderly", (11.7, 15.5))])]),
   ("Creatinine",
     [("Male", [("adult", (0.7, 1.3)), ("child", (0.3, 0.7)), ("elderly", (0.8, 1.4))]),
      ("Female", [("adult", (0.6, 1.1)), ("child", (0.3, 0.7)), ("elderly", (0.6, 1.2))])]),
   ("HDL Cholesterol",
     [("Male", [("adult", (40, 100)), ("child", (35, 100)), ("elderly", (40, 100))]),
      ("Female", [("adult", (50, 100)), ("child", (35, 100)), ("elderly", (50, 100))])]),
   ("Heart Rate",
     [("all", [("infant", (100, 160)), ("child", (70, 120)), ("teen", (60, 100)),
               ("adult", (60, 100)), ("elderly", (60, 100))])]),
   ("Blood Pressure Systolic",
     [("all", [("child", (80, 110)), ("teen", (100, 120)), ("adult", (90, 120)),
               ("elderly", (90, 140))])])]

/-- Age-bucket selection of `get_age_gender_adjusted_range`
(`database_manager.py` lines 693–704): default "adult" when age is unknown. -/
def ageGroupOf : Option Int → String
  | none => "adult"
  | some a =>
    if a < 2 then "infant"
    else if a < 13 then "child"
    else if a < 18 then "teen"
    else if 65 ≤ a then "elderly"
    else "adult"

/-- Base-range fallback dict of `get_age_gender_adjusted_range`
(`database_manager.py` lines 740–749): base bounds and criticals, flags
hard-coded to false. -/
def baseInfo (tt : TestType) : RangeInfo :=
  { normal_min := tt.normal_min, normal_max := tt.normal_max,
    critical_low := tt.critical_low, critical_high := tt.critical_high,
    source := "Base range", age_adjusted := false, gender_adjusted := false }

/-- Adjustment-table branch of `get_age_gender_adjusted_range`
(`database_manager.py` lines 685–738): gender-specific sub-table when the
gender is truthy and is a key, else the "all" sub-table; a missing age bucket
inside a chosen sub-table falls through to the base-range return. -/
def tableResolve (tt : TestType) (test_adj : List (String × List (String × ℚ × ℚ)))
    (age : Option Int) (gender : Option String) : RangeInfo :=
  let age_group := ageGroupOf age
  let age_adjusted := age.isSome
  let genderEntry : Option (String × List (String × ℚ × ℚ)) :=
    match gender with
    | some g => if g = "" then none else (List.lookup g test_adj).map (fun d => (g, d))
    | none => none
  match genderEntry with
  | some (g, gdict) =>
    match List.lookup age_group gdict with
    | some mm =>
      { normal_min := some mm.1, normal_max := some mm.2,
        critical_low := tt.critical_low, critical_high := tt.critical_high,
        source := if age_adjusted
          then "Age/gender adjusted (" ++ age_group ++ ", " ++ g ++ ")"
          else "Gender adjusted (assumed adult, " ++ g ++ ")",
        age_adjusted := age_adjusted, gender_adjusted := true }
    | none => baseInfo tt
  | none =>
    match List.lookup "all" test_adj with
    | some adict =>
      match List.lookup age_group adict with
      | some mm =>
        { normal_min := some mm.1, normal_max := some mm.2,
          critical_low := tt.critical_low, critical_high := tt.critical_high,
          source := if age_adjusted
            then "Age adjusted (" ++ age_group ++ ")"
            else "General range (assumed adult)",
          age_adjusted := age_adjusted, gender_adjusted := false }
      | none => baseInfo tt
    | none => baseInfo tt

/-- Embedding of `get_age_gender_adjusted_range` (`database_manager.py`
lines 614–749).  Custom-range branch: normal bounds from the custom range,
criticals falling back to the base test type, and the flags recording merely
whether age/gender were supplied (`age is not None` / `gender is not None`). -/
def get_age_gender_adjusted_range (cat : Catalog) (test_name : String)
    (age : Option Int) (gender : Option String) (condition : Option String) :
    RangeInfo :=
  let custom := get_best_matching_range cat test_name age gender condition
  match get_test_type_by_name cat test_name with
  | none =>
    { normal_min := none, normal_max := none, critical_low := none,
      critical_high := none, source := "No range found",
      age_adjusted := false, gender_adjusted := false }
  | some tt =>
    match custom with
    | some cr =>
      { normal_min := cr.normal_min, normal_max := cr.normal_max,
        critical_low := (match cr.critical_low with
          | some x => some x
          | none => tt.critical_low),
        critical_high := (match cr.critical_high with
          | some x => some x
          | none => tt.critical_high),
        source := "Custom range: " ++ cr.range_name,
        age_adjusted := age.isSome, gender_adjusted := gender.isSome }
    | none =>
      match List.lookup test_name adjustmentsTable with
      | some test_adj => tableResolve tt test_adj age gender
      | none => baseInfo tt

/-- Embedding of `ReportGenerator.determine_test_status`
(`report_generator.py` lines 41–86), with the hidden instance attribute
`_last_range_info` passed explicitly: the second component of the result is
the attribute value after the call (`none` models the attribute not being
set).  A truthy `test_name` triggers a fresh resolution; only a resolution
with both normal bounds non-null overrides the passed bounds and the cached
range; the critical thresholds are always read from the cached range. -/
def determine_test_status (cat : Catalog) (last_range_info : Option RangeInfo)
    (test_value : ℚ) (normal_min normal_max : Option ℚ)
    (test_name : Option String) (age : Option Int) (gender : Option String) :
    Status × Option RangeInfo :=
  let lookedUp : Option ℚ × Option ℚ × Option RangeInfo :=
    if pyTruthy test_name then
      let ri := get_age_gender_adjusted_range cat (test_name.getD "") age gender none
      match ri.normal_min, ri.normal_max with
      | some a, some b => (some a, some b, some ri)
      | _, _ => (normal_min, normal_max, last_range_info)
    else (normal_min, normal_max, last_range_info)
  match lookedUp with
  | (nmin?, nmax?, last) =>
    match nmin?, nmax? with
    | some nmin, some nmax =>
      let crit : Option ℚ × Option ℚ :=
        match last with
        | some ri => (ri.critical_low, ri.critical_high)
        | none => (none, none)
      let cc := deriveCriticals nmin nmax crit.1 crit.2
      (classifyWith test_value nmin nmax cc.1 cc.2, last)
    | _, _ => (Status.unknown, last)

/-- Date strings handled by `check_duplicate_test_result`
(`database_manager.py` lines 276–291), classified by how
`datetime.strptime` parses them:

* `day d` — a canonical zero-padded date in the format YYYY-MM-DD,
  denoting calendar day number `d`;
* `dayTime d s` — a string in the format YYYY-MM-DD HH:MM:SS, denoting
  second `s` (0 ≤ s < 86400) of calendar day `d`;
* `other s` — any string matching neither format (unparseable).

Canonical ISO renderings are injective and ordered byte-wise like their
day numbers, so string equality on these strings is structural equality
of this type. -/
inductive DateStr where
  | day (d : Int)
  | dayTime (d : Int) (s : Nat)
  | other (s : String)
deriving DecidableEq, Repr

/-- Value of the local variable `test_date_str` in
`check_duplicate_test_result`: parseable inputs are normalized to their
calendar-day string (strftime with the day format), unparseable inputs are
kept verbatim. -/
def normalizedDate : DateStr → DateStr
  | .day d => .day d
  | .dayTime d _ => .day d
  | .other s => .other s

/-- Value of the local variable `test_datetime` in
`check_duplicate_test_result`, as seconds since day 0 (none when parsing
failed and the string is treated as opaque). -/
def parsedSeconds : DateStr → Option Int
  | .day d => some (86400 * d)
  | .dayTime d s => some (86400 * d + s)
  | .other _ => none

/-- Calendar day containing an instant given in seconds (floor division, as
datetime arithmetic never rounds toward zero). -/
def dayOf (t : Int) : Int := Int.fdiv t 86400

/-- SQL predicate `test_date BETWEEN ? AND ?` of the near-duplicate query
(`database_manager.py` lines 314–318), where both bounds are canonical day
strings: byte-wise string comparison puts the day string of day `d` inside
the bounds iff `lo ≤ d ≤ hi`, and a day-plus-time string strictly after the
bare day string of the same day, hence inside iff `lo ≤ d < hi`. -/
def dateBetween (x : DateStr) (lo hi : Int) : Bool :=
  match x with
  | .day d => decide (lo ≤ d) && decide (d ≤ hi)
  | .dayTime d _ => decide (lo ≤ d) && decide (d < hi)
  | .other _ => false

/-- Row of the `test_results` table, restricted to the columns the duplicate
check consults (`patient_id`, `test_type_id`, `test_value`, `test_date`). -/
structure TRRow where
  patient_id : String
  test_type_id : Nat
  test_value : ℚ
  test_date : DateStr
deriving DecidableEq, Repr

/-- Embedding of `check_duplicate_test_result` over the list of stored
`test_results` rows (`database_manager.py` lines 257–324, the non-error
path): normalize the incoming date, look for an exact match on patient, test
type, value and normalized date string, then — only when the date parsed and
the tolerance is positive — for a row inside the day-widened tolerance
window. -/
def check_duplicate_test_result (rows : List TRRow) (patient_id : String)
    (test_type_id : Nat) (test_value : ℚ) (test_date : DateStr)
    (tolerance_minutes : Nat) : Bool :=
  let test_date_str := normalizedDate test_date
  let exact := rows.any (fun r =>
    r.patient_id == patient_id && r.test_type_id == test_type_id &&
    r.test_value == test_value && r.test_date == test_date_str)
  if exact then true
  else
    match parsedSeconds test_date with
    | some t =>
      if 0 < tolerance_minutes then
        let lo := dayOf (t - 60 * (tolerance_minutes : Int))
        let hi := dayOf (t + 60 * (tolerance_minutes : Int))
        rows.any (fun r =>
          r.patient_id == patient_id && r.test_type_id == test_type_id &&
          r.test_value == test_value && dateBetween r.test_date lo hi)
      else false
    | none => false

/-- Store of test results together with a fault flag modelling
`sqlite3.Error` being raised by reads during the duplicate check. -/
structure DB where
  rows : List TRRow
  readFails : Bool
deriving DecidableEq, Repr

/-- Read of the `test_results` table as performed inside the
try/except of `check_duplicate_test_result`: either the rows, or the
storage error the except-clause catches. -/
def db_query_rows (db : DB) : Except String (List TRRow) :=
  if db.readFails then Except.error "sqlite3.Error" else Except.ok db.rows

/-- Full `check_duplicate_test_result` including its exception handler
(`database_manager.py` lines 272, 326–328): a storage error yields `false`
(assume no duplicate, to allow the import). -/
def check_duplicate_db (db : DB) (patient_id : String) (test_type_id : Nat)
    (test_value : ℚ) (test_date : DateStr) (tolerance_minutes : Nat) : Bool :=
  match db_query_rows db with
  | .ok rows =>
    check_duplicate_test_result rows patient_id test_type_id test_value
      test_date tolerance_minutes
  | .error _ => false

/-- Embedding of `add_test_result` (`database_manager.py` lines 221–255):
when `check_duplicates` is set and the duplicate check fires, return `false`
without writing; otherwise append the row (the INSERT itself is modelled as
succeeding) and return `true`.  The duplicate check runs with the default
tolerance of 30 minutes. -/
def add_test_result (db : DB) (patient_id : String) (test_type_id : Nat)
    (test_value : ℚ) (test_date : DateStr) (check_duplicates : Bool) :
    Bool × DB :=
  if check_duplicates &&
      check_duplicate_db db patient_id test_type_id test_value test_date 30 then
    (false, db)
  else
    (true, { rows := db.rows ++
               [{ patient_id := patient_id, test_type_id := test_type_id,
                  test_value := test_value, test_date := test_date }],
             readFails := db.readFails })

/-- Rowid assigned by SQLite to a fresh `test_types` insert: one more than
the largest existing id. -/
def nextTypeId (cat : Catalog) : Nat :=
  cat.test_types.foldl (fun m t => max m t.test_type_id) 0 + 1

/-- Embedding of `add_test_type` (`database_manager.py` lines 382–414): the
INSERT fails with an IntegrityError iff the UNIQUE `test_name` already
exists; otherwise the new row is appended. -/
def add_test_type (cat : Catalog) (test_name : String)
    (normal_min normal_max critical_low critical_high : Option ℚ) :
    Bool × Catalog :=
  if cat.test_types.any (fun t => t.test_name == test_name) then (false, cat)
  else
    (true, { test_types := cat.test_types ++
               [{ test_type_id := nextTypeId cat, test_name := test_name,
                  normal_min := normal_min, normal_max := normal_max,
                  critical_low := critical_low, critical_high := critical_high }],
             custom_ranges := cat.custom_ranges })

/-- Get-or-create-test-type-then-store step of one row of
`import_flexible_csv` (`flexible_data_processor.py` lines 368–396): an
unknown `test_name` is created with default bounds 0 and 100 and no critical
thresholds, then the result is stored under the (possibly fresh) test type
id.  Returns the updated catalog and store plus whether a row was written. -/
def import_row (cat : Catalog) (db : DB) (patient_id : String)
    (test_name : String) (test_value : ℚ) (test_date : DateStr)
    (check_duplicates : Bool) : Catalog × DB × Bool :=
  match get_test_type_by_name cat test_name with
  | some tt =>
    let r := add_test_result db patient_id tt.test_type_id test_value
      test_date check_duplicates
    (cat, r.2, r.1)
  | none =>
    let created := add_test_type cat test_name (some 0) (some 100) none none
    if created.1 then
      match get_test_type_by_name created.2 test_name with
      | some tt =>
        let r := add_test_result db patient_id tt.test_type_id test_value
          test_date check_duplicates
        (created.2, r.2, r.1)
      | none => (created.2, db, false)
    else (cat, db, false)

/-! Concrete fixtures used by the theorems below. -/

/-- Test type of the specification scenario: Hemoglobin, base range 12.0–16.0,
explicit critical_low = 10.0, critical_high unset. -/
def hemoTT : TestType :=
  { test_type_id := 1, test_name := "Hemoglobin",
    normal_min := some 12, normal_max := some 16,
    critical_low := some 10, critical_high := none }

/-- Catalog holding only the scenario Hemoglobin test type. -/
def hemoCat : Catalog := { test_types := [hemoTT], custom_ranges := [] }

/-- Test type for the unsupplied-attribute scenario. -/
def c2tt : TestType :=
  { test_type_id := 1, test_name := "T", normal_min := some 0,
    normal_max := some 10, critical_low := none, critical_high := none }

/-- Active custom range whose only constraint is an age lower bound. -/
def c2range : CustomRange :=
  { range_id := 1, test_type_id := 1, range_name := "AgeRange",
    age_min := some 18, age_max := none, gender := none, condition_name := none,
    normal_min := some 1, normal_max := some 2, critical_low := none,
    critical_high := none, is_active := true }

/-- Catalog for the unsupplied-attribute scenario. -/
def c2cat : Catalog := { test_types := [c2tt], custom_ranges := [c2range] }

/-- Custom range with only a gender constraint (specificity 2). -/
def bgA : CustomRange :=
  { range_id := 1, test_type_id := 1, range_name := "A Male",
    age_min := none, age_max := none, gender := some "Male",
    condition_name := none, normal_min := some 70, normal_max := some 100,
    critical_low := none, critical_high := none, is_active := true }

/-- Custom range with gender and condition constraints (specificity 6). -/
def bgB : CustomRange :=
  { range_id := 2, test_type_id := 1, range_name := "B Diabetic Male",
    age_min := none, age_max := none, gender := some "Male",
    condition_name := some "Diabetes", normal_min := some 80,
    normal_max := some 130, critical_low := none, critical_high := none,
    is_active := true }

/-- Blood Glucose test type for the specificity scenario. -/
def bgTT : TestType :=
  { test_type_id := 1, test_name := "Blood Glucose", normal_min := some 70,
    normal_max := some 100, critical_low := none, critical_high := none }

/-- Catalog with the two overlapping Blood Glucose custom ranges. -/
def bgCat : Catalog := { test_types := [bgTT], custom_ranges := [bgA, bgB] }

/-- Test type for the adjustment-flag scenario; its name has no entry in the
built-in adjustments table. -/
def c8tt : TestType :=
  { test_type_id := 1, test_name := "CTest", normal_min := some 0,
    normal_max := some 10, critical_low := none, critical_high := none }

/-- Active custom range with no demographic constraint at all. -/
def c8range : CustomRange :=
  { range_id := 1, test_type_id := 1, range_name := "R8",
    age_min := none, age_max := none, gender := none, condition_name := none,
    normal_min := some 1, normal_max := some 2, critical_low := none,
    critical_high := none, is_active := true }

/-- Catalog for the adjustment-flag scenario. -/
def c8cat : Catalog := { test_types := [c8tt], custom_ranges := [c8range] }

/-- Test type with both critical thresholds explicit, used to expose the
cross-call caching of `_last_range_info`. -/
def c9tt : TestType :=
  { test_type_id := 1, test_name := "Xtest", normal_min := some 12,
    normal_max := some 16, critical_low := some (1/2),
    critical_high := some 100 }

/-- Catalog for the caching scenario. -/
def c9cat : Catalog := { test_types := [c9tt], custom_ranges := [] }

/-- Empty store with working reads. -/
def emptyDB : DB := { rows := [], readFails := false }

/-- Empty catalog. -/
def emptyCat : Catalog := { test_types := [], custom_ranges := [] }

/-- Single-row store used as the duplicate-check witness. -/
def oneRowStore : List TRRow :=
  [{ patient_id := "P", test_type_id := 1, test_value := 5,
     test_date := DateStr.day 0 }]

/-! Helper lemmas about the specificity ranking and its fold. -/

lemma rankBetter_eq_true_iff {r s : CustomRange} :
    rankBetter r s = true ↔
      specificity s < specificity r ∨
      (specificity s = specificity r ∧ r.range_name < s.range_name) := by
  simp [rankBetter, Bool.or_eq_true, Bool.and_eq_true, decide_eq_true_eq,
    beq_iff_eq]

lemma rankBetter_eq_false_iff {r s : CustomRange} :
    rankBetter r s = false ↔
      specificity r ≤ specificity s ∧
      (specificity s = specificity r → s.range_name ≤ r.range_name) := by
  rw [← Bool.not_eq_true, rankBetter_eq_true_iff]
  push_neg
  exact Iff.rfl

lemma rankBetter_irrefl (r : CustomRange) : rankBetter r r = false := by
  rw [rankBetter_eq_false_iff]
  exact ⟨le_refl _, fun _ => le_refl _⟩

lemma rankBetter_trans {a b c : CustomRange} (h1 : rankBetter a b = true)
    (h2 : rankBetter b c = true) : rankBetter a c = true := by
  rw [rankBetter_eq_true_iff] at h1 h2 ⊢
  rcases h1 with h1 | ⟨h1e, h1n⟩ <;> rcases h2 with h2 | ⟨h2e, h2n⟩
  · exact Or.inl (lt_trans h2 h1)
  · exact Or.inl (h2e ▸ h1)
  · exact Or.inl (h1e ▸ h2)
  · exact Or.inr ⟨h2e.trans h1e, lt_trans h1n h2n⟩

lemma rankBetter_neg_trans {a b c : CustomRange} (h1 : rankBetter a b = false)
    (h2 : rankBetter b c = false) : rankBetter a c = false := by
  rw [rankBetter_eq_false_iff] at h1 h2 ⊢
  refine ⟨le_trans h1.1 h2.1, fun he => ?_⟩
  have hab : specificity b = specificity a :=
    le_antisymm (he ▸ h2.1) h1.1
  have hbc : specificity c = specificity b :=
    hab.symm ▸ he
  exact le_trans (h2.2 hbc) (h1.2 hab)

lemma pickBest_go (l : List CustomRange) (b0 : CustomRange) :
    ∃ b, l.foldl pickStep (some b0) = some b ∧ (b = b0 ∨ b ∈ l) ∧
      rankBetter b0 b = false ∧ ∀ s ∈ l, rankBetter s b = false := by
  induction l generalizing b0 with
  | nil =>
    exact ⟨b0, rfl, Or.inl rfl, rankBetter_irrefl b0, by simp⟩
  | cons r t ih =>
    by_cases hr : rankBetter r b0 = true
    · obtain ⟨b, hf, hmem, hrb, hall⟩ := ih r
      refine ⟨b, ?_, ?_, ?_, ?_⟩
      · simpa [List.foldl_cons, pickStep, hr] using hf
      · rcases hmem with h | h
        · exact Or.inr (h ▸ List.mem_cons_self r t)
        · exact Or.inr (List.mem_cons_of_mem r h)
      · cases hb : rankBetter b0 b with
        | false => rfl
        | true => exact absurd (rankBetter_trans hr hb) (by simp [hrb])
      · intro s hs
        rcases List.mem_cons.mp hs with h | h
        · exact h ▸ hrb
        · exact hall s h
    · have hr' : rankBetter r b0 = false := by
        cases h : rankBetter r b0 with
        | false => rfl
        | true => exact absurd h hr
      obtain ⟨b, hf, hmem, hrb, hall⟩ := ih b0
      refine ⟨b, ?_, ?_, hrb, ?_⟩
      · simpa [List.foldl_cons, pickStep, hr'] using hf
      · rcases hmem with h | h
        · exact Or.inl h
        · exact Or.inr (List.mem_cons_of_mem r h)
      · intro s hs
        rcases List.mem_cons.mp hs with h | h
        · exact h ▸ rankBetter_neg_trans hr' hrb
        · exact hall s h

lemma pickBest_spec {l : List CustomRange} {b : CustomRange}
    (h : pickBest l = some b) :
    b ∈ l ∧ ∀ s ∈ l, rankBetter s b = false := by
  cases l with
  | nil => simp [pickBest] at h
  | cons r t =>
    obtain ⟨b1, hf, hmem, hrb, hall⟩ := pickBest_go t r
    have hh : b1 = b := by
      have : pickBest (r :: t) = some b1 := by
        simpa [pickBest, List.foldl_cons, pickStep] using hf
      rw [this] at h
      exact Option.some.inj h
    subst hh
    constructor
    · rcases hmem with h | h
      · exact h ▸ List.mem_cons_self r t
      · exact List.mem_cons_of_mem r h
    · intro s hs
      rcases List.mem_cons.mp hs with h | h
      · exact h ▸ hrb
      · exact hall s h

lemma best_range_spec {cat : Catalog} {tn : String} {a : Option Int}
    {g c : Option String} {r : CustomRange}
    (h : get_best_matching_range cat tn a g c = some r) :
    ∃ tt, get_test_type_by_name cat tn = some tt ∧
      r ∈ rangeCandidates cat tt.test_type_id a g c ∧
      ∀ s ∈ rangeCandidates cat tt.test_type_id a g c,
        rankBetter s r = false := by
  unfold get_best_matching_range at h
  cases htt : get_test_type_by_name cat tn with
  | none => rw [htt] at h; exact absurd h (by simp)
  | some tt =>
    rw [htt] at h
    exact ⟨tt, rfl, (pickBest_spec h).1, (pickBest_spec h).2⟩

/-! Claim theorems.  Rational arithmetic must reduce for `decide`, so the
irreducibility of the Batteries rational operations is lifted locally. -/

section ClaimTheorems

attribute [local semireducible] Rat.sub Rat.mul Rat.add Rat.inv Rat.ofScientific

/-- C1 (counterexample): with explicit critical_low = 10.0 and no
critical_high on the 12.0–16.0 Hemoglobin range, the pair of thresholds the
code classifies with is NOT (10.0, 17.2): the explicit 10.0 is overwritten
by the derived 10.8, so value 10.5 classifies as critical_low although
classification against thresholds (10.0, 17.2) would yield low. -/
theorem deriveCriticals_overrides_explicit_low :
    deriveCriticals 12 16 (some 10) none ≠ ((10 : ℚ), 86/5) ∧
    (determine_test_status hemoCat none (21/2) none none (some "Hemoglobin")
      none none).1 = Status.critical_low ∧
    classifyWith (21/2) 12 16 10 (86/5) = Status.low := by
  refine ⟨by decide, by decide, by decide⟩

/-- C1 (amended): determine_test_status uses the resolution's critical
thresholds only when BOTH are present; when either is missing it recomputes
BOTH as normal_min − 0.3×(normal_max−normal_min) and
normal_max + 0.3×(normal_max−normal_min).  In the Hemoglobin scenario
(base 12.0–16.0, explicit critical_low = 10.0, critical_high unset) the
thresholds used are therefore 10.8 and 17.2, and values 9.5, 17.5 and 14.0
still classify as critical_low, critical_high and normal. -/
theorem deriveCriticals_recomputes_both_when_either_missing :
    ∀ (nmin nmax cl ch : ℚ),
      deriveCriticals nmin nmax (some cl) (some ch) = (cl, ch) ∧
      deriveCriticals nmin nmax (some cl) none =
        (nmin - (nmax - nmin) * (3/10), nmax + (nmax - nmin) * (3/10)) ∧
      deriveCriticals nmin nmax none (some ch) =
        (nmin - (nmax - nmin) * (3/10), nmax + (nmax - nmin) * (3/10)) ∧
      deriveCriticals nmin nmax none none =
        (nmin - (nmax - nmin) * (3/10), nmax + (nmax - nmin) * (3/10)) ∧
      deriveCriticals 12 16 (some 10) none = (54/5, 86/5) ∧
      (determine_test_status hemoCat none (19/2) none none (some "Hemoglobin")
        none none).1 = Status.critical_low ∧
      (determine_test_status hemoCat none (35/2) none none (some "Hemoglobin")
        none none).1 = Status.critical_high ∧
      (determine_test_status hemoCat none 14 none none (some "Hemoglobin")
        none none).1 = Status.normal := by
  intro nmin nmax cl ch
  exact ⟨rfl, rfl, rfl, rfl, by decide, by decide, by decide, by decide⟩

/-- C3: classification follows the exact precedence critical_high →
critical_low → high → low → normal; a value equal to normal_min or
normal_max classifies as normal when neither critical check fires; and a
value at or above critical_high is critical_high regardless of its relation
to normal_max. -/
theorem classify_precedence :
    ∀ (v nmin nmax cl ch : ℚ),
      (ch ≤ v → classifyWith v nmin nmax cl ch = Status.critical_high) ∧
      (v < ch → v ≤ cl → classifyWith v nmin nmax cl ch = Status.critical_low) ∧
      (v < ch → cl < v → nmax < v → classifyWith v nmin nmax cl ch = Status.high) ∧
      (v < ch → cl < v → v ≤ nmax → v < nmin →
        classifyWith v nmin nmax cl ch = Status.low) ∧
      (v < ch → cl < v → v ≤ nmax → nmin ≤ v →
        classifyWith v nmin nmax cl ch = Status.normal) ∧
      (cl < nmin → nmin < ch → nmin ≤ nmax →
        classifyWith nmin nmin nmax cl ch = Status.normal) ∧
      (cl < nmax → nmax < ch → nmin ≤ nmax →
        classifyWith nmax nmin nmax cl ch = Status.normal) := by
  intro v nmin nmax cl ch
  refine ⟨?_, ?_, ?_, ?_, ?_, ?_, ?_⟩
  · intro h1
    simp only [classifyWith]
    rw [if_pos h1]
  · intro h1 h2
    simp only [classifyWith]
    rw [if_neg (not_le.mpr h1), if_pos h2]
  · intro h1 h2 h3
    simp only [classifyWith]
    rw [if_neg (not_le.mpr h1), if_neg (not_le.mpr h2), if_pos h3]
  · intro h1 h2 h3 h4
    simp only [classifyWith]
    rw [if_neg (not_le.mpr h1), if_neg (not_le.mpr h2),
      if_neg (not_lt.mpr h3), if_pos h4]
  · intro h1 h2 h3 h4
    simp only [classifyWith]
    rw [if_neg (not_le.mpr h1), if_neg (not_le.mpr h2),
      if_neg (not_lt.mpr h3), if_neg (not_lt.mpr h4)]
  · intro h1 h2 h3
    simp only [classifyWith]
    rw [if_neg (not_le.mpr h2), if_neg (not_le.mpr h1),
      if_neg (not_lt.mpr h3), if_neg (lt_irrefl nmin)]
  · intro h1 h2 h3
    simp only [classifyWith]
    rw [if_neg (not_le.mpr h2), if_neg (not_le.mpr h1),
      if_neg (lt_irrefl nmax), if_neg (not_lt.mpr h3)]

/-- Witness for C3 at concrete thresholds 10/17 around the normal range
12–16: 20 is critical_high, the boundaries 12 and 16 are normal, and 16.5 is
high. -/
theorem classify_precedence_witness :
    classifyWith 20 12 16 10 17 = Status.critical_high ∧
    classifyWith 12 12 16 10 17 = Status.normal ∧
    classifyWith 16 12 16 10 17 = Status.normal ∧
    classifyWith (33/2) 12 16 10 17 = Status.high :=
  ⟨(classify_precedence 20 12 16 10 17).1 (by norm_num),
   (classify_precedence 12 12 16 10 17).2.2.2.2.2.1
     (by norm_num) (by norm_num) (by norm_num),
   (classify_precedence 16 12 16 10 17).2.2.2.2.2.2
     (by norm_num) (by norm_num) (by norm_num),
   (classify_precedence (33/2) 12 16 10 17).2.2.1
     (by norm_num) (by norm_num) (by norm_num)⟩

/-- C4: whenever resolve returns a custom range it is a compatible active
candidate that no other candidate outranks under the specificity order
(score 4×condition + 2×gender + 1×age-bound, descending, ties broken by
range label ascending). -/
theorem get_best_matching_range_maximal :
    ∀ (cat : Catalog) (tn : String) (a : Option Int) (g c : Option String)
      (r : CustomRange),
      get_best_matching_range cat tn a g c = some r →
      ∃ tt, get_test_type_by_name cat tn = some tt ∧
        r ∈ rangeCandidates cat tt.test_type_id a g c ∧
        ∀ s ∈ rangeCandidates cat tt.test_type_id a g c,
          rankBetter s r = false :=
  fun _ _ _ _ _ _ h => best_range_spec h

/-- Witness for C4: in the Blood Glucose scenario with condition supplied,
the gender+condition range (score 6) is selected over the gender-only range
(score 2), and the theorem certifies its maximality. -/
theorem get_best_matching_range_maximal_witness :
    get_best_matching_range bgCat "Blood Glucose" (some 45) (some "Male")
      (some "Diabetes") = some bgB ∧
    specificity bgB = 6 ∧ specificity bgA = 2 ∧
    (∃ tt, get_test_type_by_name bgCat "Blood Glucose" = some tt ∧
      bgB ∈ rangeCandidates bgCat tt.test_type_id (some 45) (some "Male")
        (some "Diabetes") ∧
      ∀ s ∈ rangeCandidates bgCat tt.test_type_id (some 45) (some "Male")
        (some "Diabetes"), rankBetter s bgB = false) :=
  ⟨by decide, by decide, by decide,
   get_best_matching_range_maximal bgCat "Blood Glucose" (some 45)
     (some "Male") (some "Diabetes") bgB (by decide)⟩

/-- C2 (counterexample): with age unknown, the active custom range whose
age_min is set is NOT excluded from candidacy: it is selected, and the
resolution reports it as its source. -/
theorem unsupplied_age_constraint_not_excluded :
    get_best_matching_range c2cat "T" none none none = some c2range ∧
    c2range.age_min = some 18 ∧ c2range.is_active = true ∧
    (get_age_gender_adjusted_range c2cat "T" none none none).source =
      "Custom range: AgeRange" := by
  refine ⟨by decide, rfl, rfl, by decide⟩

/-- C2 (amended): a constraint of a custom range is enforced only when the
corresponding patient attribute is supplied (and truthy): any selected range
is active, and satisfies every constraint whose attribute was supplied;
ranges whose constraints refer to unsupplied attributes remain candidates. -/
theorem candidate_constraints_checked_only_when_supplied :
    ∀ (cat : Catalog) (tn : String) (a : Option Int) (g c : Option String)
      (r : CustomRange),
      get_best_matching_range cat tn a g c = some r →
      r.is_active = true ∧
      (∀ x, a = some x →
        (∀ m, r.age_min = some m → m ≤ x) ∧
        (∀ m, r.age_max = some m → x ≤ m)) ∧
      (∀ gs, g = some gs → gs ≠ "" → ∀ g0, r.gender = some g0 → g0 = gs) ∧
      (∀ cs, c = some cs → cs ≠ "" →
        ∀ c0, r.condition_name = some c0 → c0 = cs) := by
  intro cat tn a g c r h
  obtain ⟨tt, _, hmem, _⟩ := best_range_spec h
  rw [rangeCandidates, List.mem_filter] at hmem
  obtain ⟨-, hp⟩ := hmem
  simp only [Bool.and_eq_true] at hp
  obtain ⟨⟨⟨⟨-, hact⟩, hage⟩, hgen⟩, hcond⟩ := hp
  refine ⟨hact, ?_, ?_, ?_⟩
  · intro x hx
    subst hx
    simp only [Bool.and_eq_true] at hage
    obtain ⟨hmin, hmax⟩ := hage
    constructor
    · intro m hm
      rw [hm] at hmin
      simpa using hmin
    · intro m hm
      rw [hm] at hmax
      simpa using hmax
  · intro gs hg hne g0 hg0
    subst hg
    rw [hg0] at hgen
    simpa [hne] using hgen
  · intro cs hc hne c0 hc0
    subst hc
    rw [hc0] at hcond
    simpa [hne] using hcond

/-- Witness for the amended C2: with age 30 supplied, the age-constrained
range is selected and its lower bound 18 is indeed satisfied. -/
theorem candidate_constraints_witness :
    c2range.is_active = true ∧ (18 : Int) ≤ 30 :=
  ⟨(candidate_constraints_checked_only_when_supplied c2cat "T" (some 30)
      none none c2range (by decide)).1,
   ((candidate_constraints_checked_only_when_supplied c2cat "T" (some 30)
      none none c2range (by decide)).2.1 30 rfl).1 18 rfl⟩

/-- C5: over a date-grain store (every persisted date is a calendar-day
string), the duplicate check returns true iff an exact match exists (same
patient, test type, value and normalized day string) or — only when the
incoming date parsed and the tolerance is positive — some stored result with
the same patient, test type and value has a day inside the tolerance window
widened to whole days; an unparseable date takes part only in exact opaque
comparison. -/
theorem check_duplicate_iff_day_window :
    ∀ (rows : List TRRow) (pid : String) (tid : Nat) (v : ℚ) (date : DateStr)
      (tol : Nat),
      (∀ r ∈ rows, ∃ d, r.test_date = DateStr.day d) →
      (check_duplicate_test_result rows pid tid v date tol = true ↔
        ((∃ r ∈ rows, r.patient_id = pid ∧ r.test_type_id = tid ∧
            r.test_value = v ∧ r.test_date = normalizedDate date) ∨
          (∃ t, parsedSeconds date = some t ∧ 0 < tol ∧
            ∃ r ∈ rows, r.patient_id = pid ∧ r.test_type_id = tid ∧
              r.test_value = v ∧ ∃ d, r.test_date = DateStr.day d ∧
                dayOf (t - 60 * (tol : Int)) ≤ d ∧
                d ≤ dayOf (t + 60 * (tol : Int))))) := by
  intro rows pid tid v date tol hday
  simp only [check_duplicate_test_result]
  by_cases hex : (rows.any (fun r =>
      r.patient_id == pid && r.test_type_id == tid && r.test_value == v &&
      r.test_date == normalizedDate date)) = true
  · rw [if_pos hex]
    simp only [List.any_eq_true, Bool.and_eq_true, beq_iff_eq] at hex
    obtain ⟨r, hr, ⟨⟨h1, h2⟩, h3⟩, h4⟩ := hex
    exact ⟨fun _ => Or.inl ⟨r, hr, h1, h2, h3, h4⟩, fun _ => rfl⟩
  · rw [if_neg hex]
    have hexn : ¬ ∃ r ∈ rows, r.patient_id = pid ∧ r.test_type_id = tid ∧
        r.test_value = v ∧ r.test_date = normalizedDate date := by
      rintro ⟨r, hr, h1, h2, h3, h4⟩
      exact hex (List.any_eq_true.mpr ⟨r, hr, by simp [h1, h2, h3, h4]⟩)
    cases hps : parsedSeconds date with
    | none =>
      simp only [hps]
      constructor
      · intro hF
        cases hF
      · rintro (hL | ⟨t, ht, -⟩)
        · exact absurd hL hexn
        · cases ht
    | some t =>
      simp only [hps]
      by_cases htol : 0 < tol
      · rw [if_pos htol]
        constructor
        · intro hA
          obtain ⟨r, hr, hp⟩ := List.any_eq_true.mp hA
          simp only [Bool.and_eq_true, beq_iff_eq] at hp
          obtain ⟨⟨⟨h1, h2⟩, h3⟩, h4⟩ := hp
          obtain ⟨d, hd⟩ := hday r hr
          rw [hd] at h4
          simp only [dateBetween, Bool.and_eq_true, decide_eq_true_eq] at h4
          exact Or.inr ⟨t, rfl, htol, r, hr, h1, h2, h3, d, hd, h4.1, h4.2⟩
        · rintro (hL | ⟨t2, ht2, -, r, hr, h1, h2, h3, d, hd, hlo, hhi⟩)
          · exact absurd hL hexn
          · obtain rfl := Option.some.inj ht2
            refine List.any_eq_true.mpr ⟨r, hr, ?_⟩
            simp only [Bool.and_eq_true, beq_iff_eq, hd, dateBetween,
              decide_eq_true_eq]
            exact ⟨⟨⟨h1, h2⟩, h3⟩, hlo, hhi⟩
      · rw [if_neg htol]
        constructor
        · intro hF
          cases hF
        · rintro (hL | ⟨t2, -, htol2, -⟩)
          · exact absurd hL hexn
          · exact absurd htol2 htol

/-- Witness for C5 on a one-row day-grain store: resubmitting the stored
(patient, test, value, day) is reported as a duplicate, and the iff holds. -/
theorem check_duplicate_iff_day_window_witness :
    (∀ r ∈ oneRowStore, ∃ d, r.test_date = DateStr.day d) ∧
    (check_duplicate_test_result oneRowStore "P" 1 5 (DateStr.day 0) 30 = true ↔
      ((∃ r ∈ oneRowStore, r.patient_id = "P" ∧ r.test_type_id = 1 ∧
          r.test_value = 5 ∧ r.test_date = normalizedDate (DateStr.day 0)) ∨
        (∃ t, parsedSeconds (DateStr.day 0) = some t ∧ 0 < 30 ∧
          ∃ r ∈ oneRowStore, r.patient_id = "P" ∧ r.test_type_id = 1 ∧
            r.test_value = 5 ∧ ∃ d, r.test_date = DateStr.day d ∧
              dayOf (t - 60 * ((30 : Nat) : Int)) ≤ d ∧
              d ≤ dayOf (t + 60 * ((30 : Nat) : Int))))) :=
  have hday : ∀ r ∈ oneRowStore, ∃ d, r.test_date = DateStr.day d := by
    intro r hr
    simp only [oneRowStore, List.mem_singleton] at hr
    exact ⟨0, by rw [hr]⟩
  ⟨hday, check_duplicate_iff_day_window oneRowStore "P" 1 5 (DateStr.day 0)
    30 hday⟩

/-- C6: when the storage layer fails during the duplicate check, the check
returns false (fail-open) and add_test_result still appends the record and
returns true. -/
theorem duplicate_check_fail_open :
    ∀ (db : DB) (pid : String) (tid : Nat) (v : ℚ) (date : DateStr),
      db.readFails = true →
      check_duplicate_db db pid tid v date 30 = false ∧
      add_test_result db pid tid v date true =
        (true, DB.mk (db.rows ++ [TRRow.mk pid tid v date]) db.readFails) := by
  intro db pid tid v date h
  have hc : check_duplicate_db db pid tid v date 30 = false := by
    simp [check_duplicate_db, db_query_rows, h]
  exact ⟨hc, by simp [add_test_result, hc]⟩

/-- Witness for C6: a failing store that actually contains an exact
duplicate of the submission still reports no duplicate, and the row is
written a second time. -/
theorem duplicate_check_fail_open_witness :
    check_duplicate_db (DB.mk oneRowStore true) "P" 1 5
      (DateStr.day 0) 30 = false ∧
    add_test_result (DB.mk oneRowStore true) "P" 1 5 (DateStr.day 0) true =
      (true, DB.mk (oneRowStore ++ [TRRow.mk "P" 1 5 (DateStr.day 0)]) true) :=
  duplicate_check_fail_open (DB.mk oneRowStore true)
    "P" 1 5 (DateStr.day 0) rfl

/-- C7 (counterexample): submitting the identical record twice with a
date-plus-time string (10:00:00 of day 0) and duplicate checking on lets the
second call return true as well and write a second row: the normalized day
string never matches the stored full string, and the day-widened window
excludes same-day timestamped values. -/
theorem datetime_duplicate_not_rejected :
    (add_test_result emptyDB "P" 1 5 (DateStr.dayTime 0 36000) true).1 = true ∧
    (add_test_result
      (add_test_result emptyDB "P" 1 5 (DateStr.dayTime 0 36000) true).2
      "P" 1 5 (DateStr.dayTime 0 36000) true).1 = true ∧
    (add_test_result
      (add_test_result emptyDB "P" 1 5 (DateStr.dayTime 0 36000) true).2
      "P" 1 5 (DateStr.dayTime 0 36000) true).2.rows.length = 2 := by
  refine ⟨by decide, by decide, by decide⟩

/-- C7 (amended): for a calendar-day date string (the persisted date-grain
form) or an unparseable opaque string, submitting the identical
(patient, test type, value, date) twice makes the second call with
duplicate checking on return false and leave the store unchanged, while
with checking off both submissions succeed and both rows are stored. -/
theorem duplicate_guard_second_submit :
    ∀ (db : DB) (pid : String) (tid : Nat) (v : ℚ) (date : DateStr),
      db.readFails = false →
      ((∃ d, date = DateStr.day d) ∨ (∃ s, date = DateStr.other s)) →
      (add_test_result db pid tid v date false).1 = true ∧
      (add_test_result db pid tid v date false).2.rows =
        db.rows ++ [TRRow.mk pid tid v date] ∧
      add_test_result (add_test_result db pid tid v date false).2 pid tid v
        date true = (false, (add_test_result db pid tid v date false).2) ∧
      (add_test_result (add_test_result db pid tid v date false).2 pid tid v
        date false).1 = true ∧
      (add_test_result (add_test_result db pid tid v date false).2 pid tid v
        date false).2.rows =
        db.rows ++ [TRRow.mk pid tid v date, TRRow.mk pid tid v date] := by
  intro db pid tid v date hrf hd
  have hnd : normalizedDate date = date := by
    rcases hd with ⟨d, rfl⟩ | ⟨s, rfl⟩ <;> rfl
  have h1 : add_test_result db pid tid v date false =
      (true, DB.mk (db.rows ++ [TRRow.mk pid tid v date]) db.readFails) := by
    simp [add_test_result]
  have hf : ((db.rows ++ [TRRow.mk pid tid v date]).any (fun r =>
      r.patient_id == pid && r.test_type_id == tid && r.test_value == v &&
      r.test_date == normalizedDate date)) = true := by
    refine List.any_eq_true.mpr
      ⟨TRRow.mk pid tid v date,
       List.mem_append_right _ (List.mem_singleton.mpr rfl), ?_⟩
    simp [hnd]
  have hdup : check_duplicate_db
      (DB.mk (db.rows ++ [TRRow.mk pid tid v date]) db.readFails)
      pid tid v date 30 = true := by
    simp only [check_duplicate_db, db_query_rows, hrf, if_neg Bool.false_ne_true,
      check_duplicate_test_result]
    rw [if_pos hf]
  rw [h1]
  refine ⟨rfl, rfl, ?_, ?_, ?_⟩
  · simp [add_test_result, hdup]
  · simp [add_test_result]
  · simp [add_test_result]

/-- Witness for the amended C7 on an empty store with a day-grain date. -/
theorem duplicate_guard_second_submit_witness :
    (add_test_result emptyDB "P" 1 5 (DateStr.day 0) false).1 = true ∧
    (add_test_result emptyDB "P" 1 5 (DateStr.day 0) false).2.rows =
      emptyDB.rows ++ [TRRow.mk "P" 1 5 (DateStr.day 0)] ∧
    add_test_result (add_test_result emptyDB "P" 1 5 (DateStr.day 0) false).2
      "P" 1 5 (DateStr.day 0) true =
      (false, (add_test_result emptyDB "P" 1 5 (DateStr.day 0) false).2) ∧
    (add_test_result (add_test_result emptyDB "P" 1 5 (DateStr.day 0) false).2
      "P" 1 5 (DateStr.day 0) false).1 = true ∧
    (add_test_result (add_test_result emptyDB "P" 1 5 (DateStr.day 0) false).2
      "P" 1 5 (DateStr.day 0) false).2.rows =
      emptyDB.rows ++ [TRRow.mk "P" 1 5 (DateStr.day 0),
        TRRow.mk "P" 1 5 (DateStr.day 0)] :=
  duplicate_guard_second_submit emptyDB "P" 1 5 (DateStr.day 0) rfl
    (Or.inl ⟨0, rfl⟩)

lemma tableResolve_flags (tt : TestType)
    (ta : List (String × List (String × ℚ × ℚ)))
    (a : Option Int) (g : Option String) :
    ((tableResolve tt ta a g).age_adjusted = true → a.isSome = true) ∧
    ((tableResolve tt ta a g).gender_adjusted = true → g.isSome = true) := by
  rcases g with _ | gs
  · rcases hall : List.lookup "all" ta with _ | ad
    · simp [tableResolve, hall, baseInfo]
    · rcases hag : List.lookup (ageGroupOf a) ad with _ | mm
      · simp [tableResolve, hall, hag, baseInfo]
      · simp [tableResolve, hall, hag]
  · by_cases hgs : gs = ""
    · rcases hall : List.lookup "all" ta with _ | ad
      · simp [tableResolve, hgs, hall, baseInfo]
      · rcases hag : List.lookup (ageGroupOf a) ad with _ | mm
        · simp [tableResolve, hgs, hall, hag, baseInfo]
        · simp [tableResolve, hgs, hall, hag]
    · rcases hg : List.lookup gs ta with _ | gd
      · rcases hall : List.lookup "all" ta with _ | ad
        · simp [tableResolve, hgs, hg, hall, baseInfo]
        · rcases hag : List.lookup (ageGroupOf a) ad with _ | mm
          · simp [tableResolve, hgs, hg, hall, hag, baseInfo]
          · simp [tableResolve, hgs, hg, hall, hag]
      · rcases hag : List.lookup (ageGroupOf a) gd with _ | mm
        · simp [tableResolve, hgs, hg, hag, baseInfo]
        · simp [tableResolve, hgs, hg, hag]

/-- C8 (counterexample): for a test with NO entry in the built-in
adjustment table, a matching custom range with no gender and no age
constraint still yields age_adjusted = true and gender_adjusted = true as
soon as age and gender are supplied — no gender-specific table branch was
used and no age bucket was selected. -/
theorem custom_branch_sets_flags_without_table :
    (get_age_gender_adjusted_range c8cat "CTest" (some 30) (some "Male")
      none).gender_adjusted = true ∧
    (get_age_gender_adjusted_range c8cat "CTest" (some 30) (some "Male")
      none).age_adjusted = true ∧
    (get_age_gender_adjusted_range c8cat "CTest" (some 30) (some "Male")
      none).source = "Custom range: R8" ∧
    c8range.gender = none ∧ c8range.age_min = none ∧ c8range.age_max = none ∧
    List.lookup "CTest" adjustmentsTable = none := by
  refine ⟨by decide, by decide, by decide, rfl, rfl, rfl, by decide⟩

/-- C8 (amended): in every resolution, age_adjusted implies age was
supplied and gender_adjusted implies gender was supplied; when a custom
range matched, the two flags are exactly "age supplied" and "gender
supplied" — they do not record whether a table bucket or gender branch was
actually used. -/
theorem adjustment_flags_only_if_supplied :
    ∀ (cat : Catalog) (tn : String) (a : Option Int) (g c : Option String),
      ((get_age_gender_adjusted_range cat tn a g c).age_adjusted = true →
        a.isSome = true) ∧
      ((get_age_gender_adjusted_range cat tn a g c).gender_adjusted = true →
        g.isSome = true) ∧
      (∀ r, get_best_matching_range cat tn a g c = some r →
        (get_age_gender_adjusted_range cat tn a g c).age_adjusted =
          a.isSome ∧
        (get_age_gender_adjusted_range cat tn a g c).gender_adjusted =
          g.isSome) := by
  intro cat tn a g c
  cases htt : get_test_type_by_name cat tn with
  | none =>
    refine ⟨?_, ?_, ?_⟩
    · intro h
      rw [get_age_gender_adjusted_range, htt] at h
      cases h
    · intro h
      rw [get_age_gender_adjusted_range, htt] at h
      cases h
    · intro r hr
      rw [get_best_matching_range, htt] at hr
      cases hr
  | some tt =>
    cases hcr : get_best_matching_range cat tn a g c with
    | some cr =>
      refine ⟨?_, ?_, fun r _ => ?_⟩
      · intro h
        rw [get_age_gender_adjusted_range, htt, hcr] at h
        exact h
      · intro h
        rw [get_age_gender_adjusted_range, htt, hcr] at h
        exact h
      · rw [get_age_gender_adjusted_range, htt, hcr]
        exact ⟨rfl, rfl⟩
    | none =>
      cases hadj : List.lookup tn adjustmentsTable with
      | none =>
        refine ⟨?_, ?_, ?_⟩
        · intro h
          rw [get_age_gender_adjusted_range, htt, hcr, hadj] at h
          cases h
        · intro h
          rw [get_age_gender_adjusted_range, htt, hcr, hadj] at h
          cases h
        · intro r hr
          cases hr
      | some ta =>
        refine ⟨?_, ?_, ?_⟩
        · intro h
          rw [get_age_gender_adjusted_range, htt, hcr, hadj] at h
          exact (tableResolve_flags tt ta a g).1 h
        · intro h
          rw [get_age_gender_adjusted_range, htt, hcr, hadj] at h
          exact (tableResolve_flags tt ta a g).2 h
        · intro r hr
          cases hr

/-- Witness for the amended C8 at the custom-range scenario: both flags are
set, so both attributes must have been supplied. -/
theorem adjustment_flags_witness :
    (some (30 : Int)).isSome = true ∧ (some "Male").isSome = true :=
  ⟨(adjustment_flags_only_if_supplied c8cat "CTest" (some 30) (some "Male")
      none).1 (by decide),
   (adjustment_flags_only_if_supplied c8cat "CTest" (some 30) (some "Male")
      none).2.1 (by decide)⟩

/-- C9: determine_test_status caches the last successfully resolved range
(second component) and a later call whose own lookup yields no bounds reads
the cached critical thresholds: the same final call (value 9.5, explicit
bounds 12–16, no test name) returns low after a prior call on the Xtest
catalog entry but critical_low when no prior call happened. -/
theorem determine_status_reads_cached_range :
    (determine_test_status c9cat none 14 none none (some "Xtest") none
      none).2 = some (RangeInfo.mk (some 12) (some 16) (some (1/2))
        (some 100) "Base range" false false) ∧
    (determine_test_status c9cat
      ((determine_test_status c9cat none 14 none none (some "Xtest") none
        none).2)
      (19/2) (some 12) (some 16) none none none).1 = Status.low ∧
    (determine_test_status c9cat none (19/2) (some 12) (some 16) none none
      none).1 = Status.critical_low ∧
    Status.low ≠ Status.critical_low := by
  refine ⟨by decide, by decide, by decide, by decide⟩

/-- C10 (counterexample): importing an unknown test named "Heart Rate"
creates the default 0–100 test type, yet the very next resolution returns
the built-in table range 60–100, not the 0–100 default. -/
theorem import_heart_rate_uses_builtin_table :
    get_test_type_by_name
      (import_row emptyCat emptyDB "P" "Heart Rate" 80 (DateStr.day 0)
        true).1 "Heart Rate" =
      some (TestType.mk 1 "Heart Rate" (some 0) (some 100) none none) ∧
    (get_age_gender_adjusted_range
      (import_row emptyCat emptyDB "P" "Heart Rate" 80 (DateStr.day 0)
        true).1 "Heart Rate" none none none).normal_min = some 60 ∧
    some (60 : ℚ) ≠ some (0 : ℚ) := by
  refine ⟨by decide, by decide, by decide⟩

/-- C10 (amended): importing a row whose test name matches no existing
TestType silently creates that type with bounds 0 and 100 and no critical
thresholds and stores the result under it; provided the name is not one of
the built-in adjustment-table names and no custom range targets the fresh
id, every subsequent resolution returns the 0–100 base range and every
classification uses the derived critical thresholds −30 and 130 instead of
reporting the range as undefined. -/
theorem import_unknown_test_defaults :
    ∀ (cat : Catalog) (db : DB) (pid name : String) (v : ℚ) (d : Int),
      get_test_type_by_name cat name = none →
      name ≠ "" →
      List.lookup name adjustmentsTable = none →
      (∀ cr ∈ cat.custom_ranges, cr.test_type_id ≠ nextTypeId cat) →
      db.rows = [] →
      (import_row cat db pid name v (DateStr.day d) true).2.2 = true ∧
      (import_row cat db pid name v (DateStr.day d) true).2.1.rows =
        [TRRow.mk pid (nextTypeId cat) v (DateStr.day d)] ∧
      get_test_type_by_name (import_row cat db pid name v (DateStr.day d)
        true).1 name =
        some (TestType.mk (nextTypeId cat) name (some 0) (some 100) none
          none) ∧
      (∀ a g, get_age_gender_adjusted_range
        (import_row cat db pid name v (DateStr.day d) true).1 name a g none =
        RangeInfo.mk (some 0) (some 100) none none "Base range" false
          false) ∧
      (∀ a g v2, (determine_test_status
        (import_row cat db pid name v (DateStr.day d) true).1 none v2 none
        none (some name) a g).1 = classifyWith v2 0 100 (-30) 130) := by
  intro cat db pid name v d h1 hne hadj hcrs hrows
  have hany : (cat.test_types.any (fun t => t.test_name == name)) = false := by
    rw [List.any_eq_false]
    intro t ht
    exact List.find?_eq_none.mp h1 t ht
  have hfind2 : get_test_type_by_name
      (Catalog.mk (cat.test_types ++
        [TestType.mk (nextTypeId cat) name (some 0) (some 100) none none])
        cat.custom_ranges) name =
      some (TestType.mk (nextTypeId cat) name (some 0) (some 100) none
        none) := by
    rw [get_test_type_by_name] at h1 ⊢
    rw [List.find?_append, h1]
    simp [List.find?]
  have hcheck : ∀ tid, check_duplicate_db db pid tid v (DateStr.day d) 30 =
      false := by
    intro tid
    cases hrf : db.readFails with
    | true => simp [check_duplicate_db, db_query_rows, hrf]
    | false =>
      simp [check_duplicate_db, db_query_rows, hrf, hrows,
        check_duplicate_test_result, parsedSeconds]
  have hadd : add_test_result db pid (nextTypeId cat) v (DateStr.day d)
      true = (true, DB.mk [TRRow.mk pid (nextTypeId cat) v (DateStr.day d)]
        db.readFails) := by
    simp [add_test_result, hcheck, hrows]
  have himp : import_row cat db pid name v (DateStr.day d) true =
      (Catalog.mk (cat.test_types ++
        [TestType.mk (nextTypeId cat) name (some 0) (some 100) none none])
        cat.custom_ranges,
       DB.mk [TRRow.mk pid (nextTypeId cat) v (DateStr.day d)] db.readFails,
       true) := by
    rw [import_row, h1]
    simp only [add_test_type, hany, Bool.false_eq_true, if_false, if_true]
    rw [hfind2]
    simp only [hadd]
  have hbest : ∀ a g, get_best_matching_range
      (Catalog.mk (cat.test_types ++
        [TestType.mk (nextTypeId cat) name (some 0) (some 100) none none])
        cat.custom_ranges) name a g none = none := by
    intro a g
    have hcand : rangeCandidates
        (Catalog.mk (cat.test_types ++
          [TestType.mk (nextTypeId cat) name (some 0) (some 100) none none])
          cat.custom_ranges) (nextTypeId cat) a g none = [] := by
      rw [rangeCandidates, List.filter_eq_nil_iff]
      intro r hr
      have hne2 := hcrs r hr
      simp [hne2]
    simp [get_best_matching_range, hfind2, hcand, pickBest]
  have hres : ∀ a g, get_age_gender_adjusted_range
      (Catalog.mk (cat.test_types ++
        [TestType.mk (nextTypeId cat) name (some 0) (some 100) none none])
        cat.custom_ranges) name a g none =
      RangeInfo.mk (some 0) (some 100) none none "Base range" false
        false := by
    intro a g
    rw [get_age_gender_adjusted_range, hbest a g, hfind2, hadj]
    rfl
  have hcrit : deriveCriticals 0 100 none none = (-30, 130) := by
    show ((0:ℚ) - (100 - 0) * (3/10), (100:ℚ) + (100 - 0) * (3/10)) =
      (-30, 130)
    norm_num
  rw [himp]
  refine ⟨rfl, rfl, hfind2, hres, ?_⟩
  intro a g v2
  have hpt : pyTruthy (some name) = true := by simp [pyTruthy, hne]
  rw [determine_test_status]
  simp [hpt, hres a g, hcrit]

/-- Witness for the amended C10: importing the unknown test name
"Widget Factor" into an empty catalog yields the 0–100 base resolution and
classification against −30/130 for any later call. -/
theorem import_unknown_test_defaults_witness :
    (import_row emptyCat emptyDB "P" "Widget Factor" 50 (DateStr.day 0)
      true).2.2 = true ∧
    get_age_gender_adjusted_range
      (import_row emptyCat emptyDB "P" "Widget Factor" 50 (DateStr.day 0)
        true).1 "Widget Factor" (some 40) (some "Female") none =
      RangeInfo.mk (some 0) (some 100) none none "Base range" false false ∧
    (determine_test_status
      (import_row emptyCat emptyDB "P" "Widget Factor" 50 (DateStr.day 0)
        true).1 none 135 none none (some "Widget Factor") none none).1 =
      classifyWith 135 0 100 (-30) 130 :=
  have h := import_unknown_test_defaults emptyCat emptyDB "P"
    "Widget Factor" 50 0 (by decide) (by decide) (by decide) (by decide) rfl
  ⟨h.1, h.2.2.2.1 (some 40) (some "Female"), h.2.2.2.2 none none 135⟩

end ClaimTheorems

end MedSys
